import Mathlib

/-!
Shallow embedding of the usage-accounting and quota-enforcement core of the
TrueBackup cloud-sync backend.

Sources embedded here:
- `database/schema.sql`: tables `clients`, `files`, `egress_usage`, `alerts`,
  `client_storage_config`, and the stored routines `recalculate_client_storage`,
  `get_client_monthly_egress`, `record_egress`, `reset_monthly_egress`;
- `src/controllers/file.controller.js`: `getUploadUrl`, `getDownloadUrl`;
- the client controller: `dismissAlert`.

Modelling conventions:
- MySQL `DECIMAL(p,s)` values are carried as natural numbers scaled by `10^s`
  (`DECIMAL(10,2)` GB values in hundredths of a GB, `DECIMAL(12,4)` GB values
  in ten-thousandths of a GB).  MySQL decimal division at a fixed scale rounds
  the exact quotient to the nearest representable value (halves away from
  zero); `divRound` below implements exactly that for non-negative operands.
- `DATETIME` values are pairs of a calendar-month index and an intra-month
  tick, ordered lexicographically; every date comparison in the embedded SQL
  compares against the first instant of a month, so it reduces to a
  comparison of month indices.
- JavaScript number arithmetic in the controllers (`parseFloat`, `+`, `/`,
  comparisons) is modelled as exact rational arithmetic over `ℚ`.
- The `await query(...)` round trips, presigned-URL generation, activity
  logging and UUID generation are plumbing; rows receive `Nat` identifiers,
  and fresh alert identifiers are drawn from a counter in the state.
-/

namespace TrueBackup

/-- MySQL decimal division rounded to the ambient scale: `divRound a b` is
`a / b` rounded to the nearest natural, halves rounded up (MySQL rounds
halves away from zero, and all quantities here are non-negative). -/
def divRound (a b : Nat) : Nat := (2 * a + b) / (2 * b)

/-- A `DATETIME`: calendar-month index (e.g. year*12 + month) plus an
intra-month tick, ordered lexicographically. -/
structure Time where
  month : Nat
  tick : Nat
deriving DecidableEq

/-- SQL `t < DATE_FORMAT(NOW(), '%Y-%m-01 00:00:00')` where `m` is the month
of `NOW()`: a datetime is before the first instant of month `m` exactly when
its month index is smaller. -/
def Time.beforeMonthStart (t : Time) (m : Nat) : Bool := decide (t.month < m)

/-- SQL `t >= DATE_FORMAT(NOW(), '%Y-%m-01')` where `m` is the month of
`NOW()`: a datetime is at or after the first instant of month `m` exactly
when its month index is at least `m`. -/
def Time.inOrAfterMonth (t : Time) (m : Nat) : Bool := decide (m ≤ t.month)

/-- `files.type ENUM('file','folder')`. -/
inductive FType where
  | file
  | folder
deriving DecidableEq

/-- `clients.status ENUM('active','suspended')`. -/
inductive ClientStatus where
  | active
  | suspended
deriving DecidableEq

/-- `alerts.alert_type ENUM('egress_warning','egress_limit','storage_warning','storage_limit')`. -/
inductive AlertType where
  | egress_warning
  | egress_limit
  | storage_warning
  | storage_limit
deriving DecidableEq

/-- A row of `files`: `id`, `client_id`, `size_bytes BIGINT`, `type`,
`s3_etag` (null until the upload is confirmed), `deleted_at` (null unless
soft-deleted).  `name`, `mime_type`, `path`, `parent_id` and `s3_key` are
plumbing not consulted by any accounting decision and are omitted. -/
structure FileRow where
  id : Nat
  clientId : Nat
  sizeBytes : Nat
  ftype : FType
  s3Etag : Option Nat
  deletedAt : Option Time
deriving DecidableEq

/-- A row of `clients` joined with its `client_storage_config` row:
`storage_quota_gb`, `storage_used_gb` and `egress_free_limit_gb` are
`DECIMAL(10,2)` (hundredths of a GB); `isVerified` is
`client_storage_config.is_verified`, false when no config row exists
(the controller's `LEFT JOIN` yields NULL, which is falsy). -/
structure ClientRow where
  id : Nat
  status : ClientStatus
  storageQuotaCenti : Nat
  storageUsedCenti : Nat
  egressFreeLimitCenti : Nat
  isVerified : Bool
deriving DecidableEq

/-- A row of `egress_usage`: unique key `(client_id, month_year)`;
`egress_used_gb DECIMAL(12,4)` in ten-thousandths of a GB. -/
structure EgressRow where
  clientId : Nat
  monthYear : Nat
  egressUsedMyg : Nat
deriving DecidableEq

/-- A row of `alerts` as created by `schema.sql`: `id`, `client_id`,
`alert_type`, `threshold_percent`, `is_read BOOLEAN DEFAULT FALSE`,
`created_at DATETIME DEFAULT CURRENT_TIMESTAMP`.  The free-text `message`
column is omitted.  Note the table defines no dismissed flag. -/
structure AlertRow where
  id : Nat
  clientId : Nat
  alertType : AlertType
  thresholdPercent : Nat
  isRead : Bool
  createdAt : Time
deriving DecidableEq

/-- `system_settings` keys consulted by the embedded controllers. -/
structure Settings where
  blockDownloadsOnOverage : Bool
deriving DecidableEq

/-- The persistent store: the tables the claims are about, the current wall
clock (`NOW()`), a fresh-id counter for alert inserts, and a count of
`activity_logs` rows (their contents are irrelevant to every claim). -/
structure DB where
  files : List FileRow
  clients : List ClientRow
  egress : List EgressRow
  alerts : List AlertRow
  settings : Settings
  now : Time
  nextAlertId : Nat
  logRows : Nat
deriving DecidableEq

/-- Column list of the `alerts` table as declared in `schema.sql`. -/
def alertsTableColumns : List String :=
  ["id", "client_id", "alert_type", "message", "threshold_percent", "is_read", "created_at"]

/-- `SELECT ... FROM clients WHERE id = ?` (the controllers reach the row via
the `user_id` join; the user-to-client join is one-to-one plumbing and the
row is addressed by its client id here). -/
def lookupClient (db : DB) (clientId : Nat) : Option ClientRow :=
  db.clients.find? fun c => c.id == clientId

/-- `UPDATE clients SET ... WHERE id = ?`: rewrite the matching row. -/
def updateClient (clients : List ClientRow) (clientId : Nat)
    (f : ClientRow → ClientRow) : List ClientRow :=
  clients.map fun c => if c.id == clientId then f c else c

/-- `p_bytes / (1024*1024*1024)` landing in `DECIMAL(12,4)`: bytes to
ten-thousandths of a GB, rounded at scale 4. -/
def bytesToGbMyg (bytes : Nat) : Nat :=
  divRound (bytes * 10000) (1024 * 1024 * 1024)

/-- `COALESCE(SUM(size_bytes),0) / (1024*1024*1024)` landing in
`DECIMAL(10,2)`: MySQL computes the quotient at scale 4 and rounds to
scale 2 on assignment — bytes to hundredths of a GB with that double
rounding. -/
def bytesToGbCenti (bytes : Nat) : Nat :=
  divRound (divRound (bytes * 10000) (1024 * 1024 * 1024)) 100

/-- The aggregate of `recalculate_client_storage`:
`SELECT COALESCE(SUM(size_bytes), 0) FROM files WHERE client_id = ?
AND type = 'file' AND deleted_at IS NULL`. -/
def countedSum (clientId : Nat) (files : List FileRow) : Nat :=
  ((files.filter fun f =>
      f.clientId == clientId && f.ftype == FType.file && f.deletedAt == none).map
    fun f => f.sizeBytes).sum

/-- Stored procedure `recalculate_client_storage(p_client_id)`: sums the
byte sizes of the client's non-deleted `type='file'` rows, converts to GB
into a `DECIMAL(10,2)`, and writes the result to `clients.storage_used_gb`. -/
def recalculate_client_storage (clientId : Nat) (db : DB) : DB :=
  let total := bytesToGbCenti (countedSum clientId db.files)
  let clients := updateClient db.clients clientId
    (fun c => { c with storageUsedCenti := total })
  { db with clients := clients }

/-- `SELECT ... FROM egress_usage WHERE client_id = ? AND month_year = ?`. -/
def findEgress (rows : List EgressRow) (clientId monthYear : Nat) : Option EgressRow :=
  rows.find? fun r => r.clientId == clientId && r.monthYear == monthYear

/-- The `egress_used_gb` value at `(clientId, monthYear)`, `COALESCE`d to 0
when no row exists. -/
def egressValue (rows : List EgressRow) (clientId monthYear : Nat) : Nat :=
  match findEgress rows clientId monthYear with
  | some r => r.egressUsedMyg
  | none => 0

/-- Stored function `get_client_monthly_egress(p_client_id)`: the current
month's `egress_used_gb` for the client, or 0 when no row exists. -/
def get_client_monthly_egress (db : DB) (clientId : Nat) : Nat :=
  egressValue db.egress clientId db.now.month

/-- `INSERT INTO egress_usage (client_id, month_year, egress_used_gb)
VALUES (?, ?, ?) ON DUPLICATE KEY UPDATE egress_used_gb = egress_used_gb + ?`
against the unique key `(client_id, month_year)`. -/
def upsertEgress (rows : List EgressRow) (clientId monthYear v : Nat) : List EgressRow :=
  match findEgress rows clientId monthYear with
  | some _ =>
      rows.map fun r =>
        if r.clientId == clientId && r.monthYear == monthYear then
          { r with egressUsedMyg := r.egressUsedMyg + v }
        else r
  | none => rows ++ [⟨clientId, monthYear, v⟩]

/-- `v_usage_percent DECIMAL(5,2) := (v_current_egress / v_free_limit) * 100`
with `v_current_egress DECIMAL(12,4)` and `v_free_limit DECIMAL(10,2)`:
MySQL computes the quotient at scale 8 (rounding there), multiplies by 100
exactly, and rounds to scale 2 on assignment; `DECIMAL(5,2)` caps the stored
value at 999.99.  Result in hundredths of a percent. -/
def usagePercentCenti (egressMyg limitCenti : Nat) : Nat :=
  min (divRound (divRound (egressMyg * 1000000) limitCenti) 10000) 99999

/-- The duplicate check of `record_egress`:
`EXISTS (SELECT 1 FROM alerts WHERE client_id = ? AND alert_type = ?
AND threshold_percent = ? AND created_at >= DATE_FORMAT(NOW(), '%Y-%m-01'))`.
Note the query does not consult `is_read`. -/
def egressAlertExists (alerts : List AlertRow) (nowMonth clientId : Nat)
    (ty : AlertType) (thr : Nat) : Bool :=
  alerts.any fun a =>
    a.clientId == clientId && a.alertType == ty && a.thresholdPercent == thr
      && a.createdAt.inOrAfterMonth nowMonth

/-- `INSERT INTO alerts (client_id, alert_type, message, threshold_percent)`:
`is_read` defaults to FALSE, `created_at` to `NOW()`, `id` to a fresh UUID. -/
def insertAlert (db : DB) (clientId : Nat) (ty : AlertType) (thr : Nat) : DB :=
  { db with
    alerts := db.alerts ++ [⟨db.nextAlertId, clientId, ty, thr, false, db.now⟩],
    nextAlertId := db.nextAlertId + 1 }

/-- Stored procedure `record_egress(p_client_id, p_bytes)`: converts the
bytes to a `DECIMAL(12,4)` GB value, upserts it additively into the
`(client_id, current month)` row of `egress_usage`, recomputes the usage
percentage against `clients.egress_free_limit_gb`, and evaluates the alert
thresholds in descending order (`IF / ELSEIF / ELSEIF`).  At threshold 100
the statement is `INSERT IGNORE INTO alerts ...`: the table's primary key is
a freshly generated UUID and the table has no other unique constraint, so
the IGNORE clause never suppresses anything and the row is always inserted.
At thresholds 90 and 80 the insert is guarded by the `NOT EXISTS` duplicate
check.  When the client row does not exist, the upsert violates the foreign
key on `egress_usage.client_id` and the procedure aborts with no change. -/
def record_egress (clientId : Nat) (bytes : Nat) (db : DB) : DB :=
  match lookupClient db clientId with
  | none => db
  | some c =>
    let gb := bytesToGbMyg bytes
    let db1 := { db with egress := upsertEgress db.egress clientId db.now.month gb }
    let pct := usagePercentCenti (egressValue db1.egress clientId db.now.month)
        c.egressFreeLimitCenti
    if 10000 ≤ pct then
      insertAlert db1 clientId AlertType.egress_limit 100
    else if 9000 ≤ pct then
      if egressAlertExists db1.alerts db.now.month clientId AlertType.egress_warning 90 then
        db1
      else insertAlert db1 clientId AlertType.egress_warning 90
    else if 8000 ≤ pct then
      if egressAlertExists db1.alerts db.now.month clientId AlertType.egress_warning 80 then
        db1
      else insertAlert db1 clientId AlertType.egress_warning 80
    else db1

/-- Stored procedure `reset_monthly_egress()`: deletes the alerts of type
`egress_warning` or `egress_limit` created before the first instant of the
current month, leaves `egress_usage` untouched, and inserts one
`activity_logs` row recording the reset. -/
def reset_monthly_egress (db : DB) : DB :=
  { db with
    alerts := db.alerts.filter fun a =>
      !((a.alertType == AlertType.egress_warning || a.alertType == AlertType.egress_limit)
        && a.createdAt.beforeMonthStart db.now.month),
    logRows := db.logRows + 1 }

/-- Errors thrown by the embedded controllers (`AppError` codes). -/
inductive ApiError where
  | ClientNotFound
  | AccountSuspended
  | StorageNotConfigured
  | QuotaExceeded
  | FileNotFound
  | DownloadLimitExceeded
  | AlertNotFound
  | UnknownColumn (column : String)
deriving DecidableEq

/-- The quota check of `getUploadUrl`:
`parseFloat(storage_used_gb) + fileSize / 2^30 > parseFloat(storage_quota_gb)`
(JavaScript numbers modelled as exact rationals). -/
def wouldExceed (c : ClientRow) (fileSizeBytes : Nat) : Bool :=
  decide ((c.storageUsedCenti : ℚ) / 100 + (fileSizeBytes : ℚ) / (1024 * 1024 * 1024)
    > (c.storageQuotaCenti : ℚ) / 100)

/-- `getUploadUrl` from `file.controller.js`, from the client lookup to the
`INSERT INTO files`: checks in order client existence, `status = 'active'`,
`is_verified`, and the storage quota; on success inserts the file row with
`type='file'`, `s3_etag` NULL and `deleted_at` NULL.  Every failure is
thrown before any write, so it leaves the store unchanged.  Presigned-URL
generation and activity logging are external plumbing. -/
def getUploadUrl (clientId : Nat) (fileSize : Nat) (newFileId : Nat) (db : DB) :
    Except ApiError Nat × DB :=
  match lookupClient db clientId with
  | none => (Except.error ApiError.ClientNotFound, db)
  | some c =>
    if c.status ≠ ClientStatus.active then (Except.error ApiError.AccountSuspended, db)
    else if !c.isVerified then (Except.error ApiError.StorageNotConfigured, db)
    else if wouldExceed c fileSize then (Except.error ApiError.QuotaExceeded, db)
    else
      (Except.ok newFileId,
        { db with files := db.files ++ [⟨newFileId, clientId, fileSize, FType.file, none, none⟩] })

/-- The overage check of `getDownloadUrl`: system setting
`block_downloads_on_overage` is `'true'` and
`parseFloat(egress_used_gb) >= parseFloat(egress_free_limit_gb)`, where
`egress_used_gb` is the current-month value `COALESCE`d to 0. -/
def downloadBlocked (db : DB) (c : ClientRow) : Bool :=
  db.settings.blockDownloadsOnOverage
    && decide ((egressValue db.egress c.id db.now.month : ℚ) / 10000
      ≥ (c.egressFreeLimitCenti : ℚ) / 100)

/-- `getDownloadUrl` from `file.controller.js`: one `SELECT` joining the
file (required non-deleted and `type='file'` and owned by the client), the
client, the current-month `egress_usage` row and the storage config; then
the `status` check, then the overage check; on success issues the presigned
URL and runs `CALL record_egress(client_id, size_bytes)` (the
`download_history` insert and activity log are external plumbing).  Every
failure is thrown before any write. -/
def getDownloadUrl (clientId : Nat) (fileId : Nat) (db : DB) :
    Except ApiError Nat × DB :=
  match db.files.find? fun f =>
      f.id == fileId && f.clientId == clientId && f.deletedAt == none
        && f.ftype == FType.file with
  | none => (Except.error ApiError.FileNotFound, db)
  | some f =>
    match lookupClient db clientId with
    | none => (Except.error ApiError.FileNotFound, db)
    | some c =>
      if c.status ≠ ClientStatus.active then (Except.error ApiError.AccountSuspended, db)
      else if downloadBlocked db c then (Except.error ApiError.DownloadLimitExceeded, db)
      else (Except.ok fileId, record_egress clientId f.sizeBytes db)

/-- The ownership check of `dismissAlert`: `SELECT a.* FROM alerts a JOIN
clients c ON a.client_id = c.id WHERE a.id = ? AND c.user_id = ?` finds a
row. -/
def alertOwnedBy (db : DB) (alertId clientId : Nat) : Bool :=
  db.alerts.any fun a => a.id == alertId && a.clientId == clientId

/-- `dismissAlert` from the client controller: verifies the alert belongs to
the requesting client, then runs
`UPDATE alerts SET is_dismissed = TRUE WHERE id = ?`.  MySQL rejects an
UPDATE whose SET column is absent from the table, and `schema.sql` declares
no `is_dismissed` column on `alerts`, so the statement errors; the guarded
branch is vacuous (the row type has no dismissed field to set precisely
because the schema defines none). -/
def dismissAlert (clientId : Nat) (alertId : Nat) (db : DB) :
    Except ApiError Nat × DB :=
  if alertOwnedBy db alertId clientId then
    if "is_dismissed" ∈ alertsTableColumns then (Except.ok alertId, db)
    else (Except.error (ApiError.UnknownColumn "is_dismissed"), db)
  else (Except.error ApiError.AlertNotFound, db)

/-- A sequence of recorded downloads by one tenant: fold `record_egress`
over the byte sizes. -/
def recordMany (clientId : Nat) (sizes : List Nat) (db : DB) : DB :=
  sizes.foldl (fun s b => record_egress clientId b s) db

/-- A sequence of `record_egress` calls for arbitrary tenants and sizes. -/
def runCalls (calls : List (Nat × Nat)) (db : DB) : DB :=
  calls.foldl (fun s p => record_egress p.1 p.2 s) db

/-- Number of alerts of the given client, type and threshold created at or
after the first instant of month `m` (the de-duplication bucket of the
spec); its predicate is exactly the one of `egressAlertExists`. -/
def countBucket (alerts : List AlertRow) (m clientId : Nat)
    (ty : AlertType) (thr : Nat) : Nat :=
  (alerts.filter fun a =>
    a.clientId == clientId && a.alertType == ty && a.thresholdPercent == thr
      && a.createdAt.inOrAfterMonth m).length

/-- Iterate `getDownloadUrl` for the same client and file `n` times,
threading the state. -/
def downloadTimes (clientId fileId : Nat) : Nat → DB → DB
  | 0, db => db
  | n + 1, db => downloadTimes clientId fileId n (getDownloadUrl clientId fileId db).2

/-- Scenario A state: client 1 active and verified, quota 100.00 GB, cached
usage 0.00 GB, egress free limit 2048.00 GB; no files, no egress, no alerts. -/
def dbA : DB where
  files := []
  clients := [⟨1, ClientStatus.active, 10000, 0, 204800, true⟩]
  egress := []
  alerts := []
  settings := ⟨false⟩
  now := ⟨5, 0⟩
  nextAlertId := 1
  logRows := 0

/-- Scenario B state: client 1 active, egress free limit 2048.00 GB,
current-month (month index 5) egress 1920.0000 GB, one confirmed 1 GiB file,
no alerts yet. -/
def dbB : DB where
  files := [⟨7, 1, 1073741824, FType.file, some 1, none⟩]
  clients := [⟨1, ClientStatus.active, 10000, 100, 204800, true⟩]
  egress := [⟨1, 5, 19200000⟩]
  alerts := []
  settings := ⟨false⟩
  now := ⟨5, 3⟩
  nextAlertId := 100
  logRows := 0

/-- State refuting C3: client 1 with egress free limit 1.00 GB, current
month 5 egress already 2.0000 GB (200%), and one unread `egress_limit`
alert at threshold 100 created this month. -/
def dbC3 : DB where
  files := []
  clients := [⟨1, ClientStatus.active, 10000, 0, 100, true⟩]
  egress := [⟨1, 5, 20000⟩]
  alerts := [⟨50, 1, AlertType.egress_limit, 100, false, ⟨5, 0⟩⟩]
  settings := ⟨false⟩
  now := ⟨5, 1⟩
  nextAlertId := 51
  logRows := 0

/-- State refuting C7: client 1 owns exactly one non-deleted `type='file'`
row of 1 GiB whose `s3_etag` is NULL (upload initiated, never confirmed). -/
def dbC7 : DB where
  files := [⟨1, 1, 1073741824, FType.file, none, none⟩]
  clients := [⟨1, ClientStatus.active, 10000, 0, 204800, true⟩]
  egress := []
  alerts := []
  settings := ⟨false⟩
  now := ⟨5, 0⟩
  nextAlertId := 1
  logRows := 0

/-- Overage state for C6: `block_downloads_on_overage` is true, client 1 is
active with egress free limit 1.00 GB, current-month egress 1.0000 GB, and
one downloadable confirmed file. -/
def dbC6 : DB where
  files := [⟨3, 1, 2048, FType.file, some 1, none⟩]
  clients := [⟨1, ClientStatus.active, 10000, 0, 100, true⟩]
  egress := [⟨1, 5, 10000⟩]
  alerts := []
  settings := ⟨true⟩
  now := ⟨5, 2⟩
  nextAlertId := 1
  logRows := 0

/-- State for C9: client 1 owns alert 5. -/
def dbC9 : DB where
  files := []
  clients := [⟨1, ClientStatus.active, 10000, 0, 204800, true⟩]
  egress := []
  alerts := [⟨5, 1, AlertType.egress_warning, 90, false, ⟨5, 0⟩⟩]
  settings := ⟨false⟩
  now := ⟨5, 4⟩
  nextAlertId := 6
  logRows := 0

/-! ### Helper lemmas -/

theorem find?_map_update {α : Type} (p : α → Bool) (f : α → α)
    (hp : ∀ x, p (f x) = p x) (l : List α) :
    (l.map fun x => if p x then f x else x).find? p = (l.find? p).map f := by
  induction l with
  | nil => rfl
  | cons x l ih =>
    cases h : p x
    · rw [List.map_cons, List.find?_cons_of_neg _ (by simp [h]),
        List.find?_cons_of_neg _ (by simp [h]), ih]
    · rw [List.map_cons, List.find?_cons_of_pos _ (by simp [h, hp x]),
        List.find?_cons_of_pos _ h, if_pos h]
      rfl

theorem lookupClient_recalculate (db : DB) (t : Nat) :
    lookupClient (recalculate_client_storage t db) t
      = (lookupClient db t).map
          (fun c => { c with storageUsedCenti := bytesToGbCenti (countedSum t db.files) }) := by
  unfold lookupClient recalculate_client_storage updateClient
  exact find?_map_update (fun c : ClientRow => c.id == t)
    (fun c => { c with storageUsedCenti := bytesToGbCenti (countedSum t db.files) })
    (fun c => rfl) db.clients

theorem updateClient_idem (cl : List ClientRow) (t : Nat) (f : ClientRow → ClientRow)
    (hf : ∀ c, (f c).id = c.id) (hff : ∀ c, f (f c) = f c) :
    updateClient (updateClient cl t f) t f = updateClient cl t f := by
  induction cl with
  | nil => rfl
  | cons c cl ih =>
    simp only [updateClient, List.map_cons] at ih ⊢
    rw [ih]
    congr 1
    cases h : c.id == t
    · simp [h]
    · simp [h, hf c, hff c]

theorem countedSum_ignores_etag (t : Nat) (e : Option Nat) (files : List FileRow) :
    countedSum t (files.map fun f => { f with s3Etag := e }) = countedSum t files := by
  induction files with
  | nil => rfl
  | cons f fs ih =>
    simp only [countedSum, List.map_cons, List.filter_cons] at ih ⊢
    cases h : f.clientId == t && f.ftype == FType.file && f.deletedAt == none
    · simpa [h] using ih
    · simpa [h] using ih

/-! ### Claim C1 -/

/-- C1: `recalculate_client_storage` writes the tenant's cached storage
usage equal to the sum of `size_bytes` over the tenant's non-deleted
`type='file'` rows converted to GB (divided by `2^30` into the
`DECIMAL(10,2)` column, i.e. `bytesToGbCenti`), and a second call with no
intervening file change is a no-op, so it yields the same usage value. -/
theorem recalculate_writes_file_sum_and_is_idempotent (db : DB) (t : Nat) (c : ClientRow)
    (hc : lookupClient db t = some c) :
    lookupClient (recalculate_client_storage t db) t
      = some { c with storageUsedCenti := bytesToGbCenti (countedSum t db.files) }
    ∧ recalculate_client_storage t (recalculate_client_storage t db)
      = recalculate_client_storage t db := by
  constructor
  · rw [lookupClient_recalculate, hc]
    rfl
  · unfold recalculate_client_storage
    dsimp only
    rw [updateClient_idem db.clients t
      (fun c => { c with storageUsedCenti := bytesToGbCenti (countedSum t db.files) })
      (fun c => rfl) (fun c => rfl)]

/-- C1 witness: on `dbB` (one confirmed 1 GiB file) recalculation writes
1.00 GB and the double call equals the single call. -/
theorem recalculate_witness :
    lookupClient dbB 1 = some ⟨1, ClientStatus.active, 10000, 100, 204800, true⟩
    ∧ lookupClient (recalculate_client_storage 1 dbB) 1
        = some { (⟨1, ClientStatus.active, 10000, 100, 204800, true⟩ : ClientRow) with
            storageUsedCenti := bytesToGbCenti (countedSum 1 dbB.files) }
    ∧ recalculate_client_storage 1 (recalculate_client_storage 1 dbB)
        = recalculate_client_storage 1 dbB := by
  refine ⟨by decide, ?_, ?_⟩
  · exact (recalculate_writes_file_sum_and_is_idempotent dbB 1 _ (by decide)).1
  · exact (recalculate_writes_file_sum_and_is_idempotent dbB 1
      ⟨1, ClientStatus.active, 10000, 100, 204800, true⟩ (by decide)).2

/-! ### Claim C7 -/

/-- C7 counterexample: in `dbC7` the only file row was created at upload
initiation and never confirmed (`s3_etag` NULL), yet
`recalculate_client_storage` writes 1.00 GB — not 0 — as the tenant's usage:
the procedure's WHERE clause never consults `s3_etag`. -/
theorem unconfirmed_file_counted :
    (∀ f ∈ dbC7.files, f.s3Etag = none)
    ∧ ((recalculate_client_storage 1 dbC7).clients.map fun c => c.storageUsedCenti) = [100] := by
  decide

/-- C7 amended: a file's size is counted toward the recalculated usage
exactly while its `type` is `'file'` and its deleted timestamp is null; the
confirmation flag (`s3_etag`) is not consulted, so the counted sum is
invariant under rewriting every file's `s3_etag` — in particular an
unconfirmed record created at upload initiation contributes its size. -/
theorem recalculate_counts_nondeleted_files_ignoring_etag (db : DB) (t : Nat) (c : ClientRow)
    (e : Option Nat) (hc : lookupClient db t = some c) :
    lookupClient (recalculate_client_storage t db) t
      = some { c with storageUsedCenti := bytesToGbCenti (countedSum t db.files) }
    ∧ ∀ files : List FileRow,
        countedSum t (files.map fun f => { f with s3Etag := e }) = countedSum t files := by
  constructor
  · rw [lookupClient_recalculate, hc]
    rfl
  · exact countedSum_ignores_etag t e

/-- C7 amended witness: instantiated on `dbC7`. -/
theorem recalculate_counts_witness :
    lookupClient (recalculate_client_storage 1 dbC7) 1
      = some { (⟨1, ClientStatus.active, 10000, 0, 204800, true⟩ : ClientRow) with
          storageUsedCenti := bytesToGbCenti (countedSum 1 dbC7.files) }
    ∧ ∀ files : List FileRow,
        countedSum 1 (files.map fun f => { f with s3Etag := some 9 }) = countedSum 1 files := by
  exact recalculate_counts_nondeleted_files_ignoring_etag dbC7 1 _ (some 9) (by decide)

/-! ### Claim C8 -/

/-- C8: `reset_monthly_egress` keeps an alert exactly when it is not an
egress alert created before the first instant of the current month (so it
deletes exactly the old `egress_warning`/`egress_limit` alerts and keeps
every current-month alert), leaves `egress_usage` untouched, and a second
run leaves the same set of alerts. -/
theorem reset_monthly_deletes_exactly_old_egress_alerts (db : DB) :
    (∀ a : AlertRow, a ∈ (reset_monthly_egress db).alerts ↔
      a ∈ db.alerts ∧
        ¬((a.alertType = AlertType.egress_warning ∨ a.alertType = AlertType.egress_limit)
          ∧ a.createdAt.month < db.now.month))
    ∧ (reset_monthly_egress db).egress = db.egress
    ∧ (reset_monthly_egress (reset_monthly_egress db)).alerts
        = (reset_monthly_egress db).alerts := by
  refine ⟨?_, rfl, ?_⟩
  · intro a
    simp [reset_monthly_egress, List.mem_filter, Time.beforeMonthStart]
    tauto
  · simp only [reset_monthly_egress, List.filter_filter]
    simp [Bool.and_self]

/-! ### Egress meter lemmas -/

theorem egressValue_upsert (rows : List EgressRow) (c m v : Nat) :
    egressValue (upsertEgress rows c m v) c m = egressValue rows c m + v := by
  unfold upsertEgress
  cases h : findEgress rows c m with
  | none =>
    simp only [egressValue, findEgress] at h ⊢
    rw [List.find?_append, h]
    simp
  | some r =>
    simp only [egressValue, findEgress] at h ⊢
    rw [find?_map_update (fun r : EgressRow => r.clientId == c && r.monthYear == m)
      (fun r => { r with egressUsedMyg := r.egressUsedMyg + v }) (fun r => rfl) rows, h]
    rfl

theorem record_egress_parts (t b : Nat) (db : DB) :
    (record_egress t b db).now = db.now
    ∧ (record_egress t b db).clients = db.clients
    ∧ (record_egress t b db).files = db.files
    ∧ (record_egress t b db).settings = db.settings := by
  unfold record_egress
  cases lookupClient db t with
  | none => exact ⟨rfl, rfl, rfl, rfl⟩
  | some c =>
    dsimp only
    split_ifs <;> exact ⟨rfl, rfl, rfl, rfl⟩

theorem record_egress_egress (t b : Nat) (db : DB) (c : ClientRow)
    (hc : lookupClient db t = some c) :
    (record_egress t b db).egress
      = upsertEgress db.egress t db.now.month (bytesToGbMyg b) := by
  unfold record_egress
  rw [hc]
  dsimp only
  split_ifs <;> rfl

theorem get_client_monthly_egress_record (t b : Nat) (db : DB) (c : ClientRow)
    (hc : lookupClient db t = some c) :
    get_client_monthly_egress (record_egress t b db) t
      = get_client_monthly_egress db t + bytesToGbMyg b := by
  unfold get_client_monthly_egress
  rw [record_egress_egress t b db c hc, (record_egress_parts t b db).1, egressValue_upsert]

theorem recordMany_usage (t : Nat) (sizes : List Nat) (db : DB) (c : ClientRow)
    (hc : lookupClient db t = some c) :
    get_client_monthly_egress (recordMany t sizes db) t
      = get_client_monthly_egress db t + (sizes.map bytesToGbMyg).sum := by
  induction sizes generalizing db with
  | nil => simp [recordMany]
  | cons b bs ih =>
    have hc' : lookupClient (record_egress t b db) t = some c := by
      unfold lookupClient
      rw [(record_egress_parts t b db).2.1]
      exact hc
    simp only [recordMany, List.foldl_cons] at ih ⊢
    rw [ih (record_egress t b db) hc', get_client_monthly_egress_record t b db c hc,
      List.map_cons, List.sum_cons]
    omega

/-! ### Claim C2 -/

/-- C2: starting from a state with no `egress_usage` row for the tenant and
the current month, `currentMonthUsage` (`get_client_monthly_egress`) is 0,
and after any sequence of recorded downloads of sizes `s1..sN` it equals
the sum of the recorded GB values — each download's byte size converted to
GB by the procedure's `DECIMAL(12,4)` conversion `bytesToGbMyg` — because
`record_egress` upserts additively into the unique `(client, month)` row. -/
theorem record_egress_is_additive (db : DB) (t : Nat) (c : ClientRow) (sizes : List Nat)
    (hc : lookupClient db t = some c)
    (h0 : findEgress db.egress t db.now.month = none) :
    get_client_monthly_egress db t = 0
    ∧ get_client_monthly_egress (recordMany t sizes db) t
        = (sizes.map bytesToGbMyg).sum := by
  have hz : get_client_monthly_egress db t = 0 := by
    unfold get_client_monthly_egress egressValue
    rw [h0]
  refine ⟨hz, ?_⟩
  rw [recordMany_usage t sizes db c hc, hz, Nat.zero_add]

/-- C2 witness: on `dbA` (no egress rows) two downloads of 1 GiB and
60000 bytes accumulate to the sum of their converted GB values. -/
theorem record_egress_is_additive_witness :
    findEgress dbA.egress 1 dbA.now.month = none
    ∧ get_client_monthly_egress dbA 1 = 0
    ∧ get_client_monthly_egress (recordMany 1 [1073741824, 60000] dbA) 1
        = ([1073741824, 60000].map bytesToGbMyg).sum := by
  refine ⟨by decide, ?_, ?_⟩
  · exact (record_egress_is_additive dbA 1 ⟨1, ClientStatus.active, 10000, 0, 204800, true⟩
      [1073741824, 60000] (by decide) (by decide)).1
  · exact (record_egress_is_additive dbA 1 ⟨1, ClientStatus.active, 10000, 0, 204800, true⟩
      [1073741824, 60000] (by decide) (by decide)).2

/-! ### Alert engine lemmas -/

theorem countBucket_append (alerts : List AlertRow) (a : AlertRow) (m c : Nat)
    (ty : AlertType) (thr : Nat) :
    countBucket (alerts ++ [a]) m c ty thr
      = countBucket alerts m c ty thr
        + (if (a.clientId == c && a.alertType == ty && a.thresholdPercent == thr
              && a.createdAt.inOrAfterMonth m) then 1 else 0) := by
  unfold countBucket
  rw [List.filter_append, List.length_append]
  congr 1
  cases h : (a.clientId == c && a.alertType == ty && a.thresholdPercent == thr
      && a.createdAt.inOrAfterMonth m)
  · simp [List.filter_cons, h]
  · simp [List.filter_cons, h]

theorem countBucket_eq_zero_of_not_exists (alerts : List AlertRow) (m c : Nat)
    (ty : AlertType) (thr : Nat)
    (h : egressAlertExists alerts m c ty thr = false) :
    countBucket alerts m c ty thr = 0 := by
  have hnil : (alerts.filter fun a =>
      a.clientId == c && a.alertType == ty && a.thresholdPercent == thr
        && a.createdAt.inOrAfterMonth m) = [] := by
    rw [List.filter_eq_nil_iff]
    intro a ha hpa
    have htrue : egressAlertExists alerts m c ty thr = true :=
      List.any_eq_true.mpr ⟨a, ha, hpa⟩
    rw [htrue] at h
    simp at h
  unfold countBucket
  rw [hnil]
  rfl

theorem record_egress_alerts (t b : Nat) (db : DB) (c : ClientRow)
    (hc : lookupClient db t = some c) :
    (record_egress t b db).alerts =
      (if 10000 ≤ usagePercentCenti (egressValue db.egress t db.now.month + bytesToGbMyg b)
          c.egressFreeLimitCenti then
        db.alerts ++ [⟨db.nextAlertId, t, AlertType.egress_limit, 100, false, db.now⟩]
      else if 9000 ≤ usagePercentCenti (egressValue db.egress t db.now.month + bytesToGbMyg b)
          c.egressFreeLimitCenti then
        (if egressAlertExists db.alerts db.now.month t AlertType.egress_warning 90 then
          db.alerts
        else db.alerts ++ [⟨db.nextAlertId, t, AlertType.egress_warning, 90, false, db.now⟩])
      else if 8000 ≤ usagePercentCenti (egressValue db.egress t db.now.month + bytesToGbMyg b)
          c.egressFreeLimitCenti then
        (if egressAlertExists db.alerts db.now.month t AlertType.egress_warning 80 then
          db.alerts
        else db.alerts ++ [⟨db.nextAlertId, t, AlertType.egress_warning, 80, false, db.now⟩])
      else db.alerts) := by
  unfold record_egress
  rw [hc]
  dsimp only
  rw [egressValue_upsert]
  split_ifs <;> rfl

theorem countBucket_insert_warning_le (alerts : List AlertRow) (m t thr t' thr' aid : Nat)
    (tick : Time)
    (hguard : egressAlertExists alerts m t' AlertType.egress_warning thr' = false)
    (h : countBucket alerts m t AlertType.egress_warning thr ≤ 1) :
    countBucket (alerts ++ [⟨aid, t', AlertType.egress_warning, thr', false, tick⟩]) m t
      AlertType.egress_warning thr ≤ 1 := by
  rw [countBucket_append]
  cases hcond : ((⟨aid, t', AlertType.egress_warning, thr', false, tick⟩ : AlertRow).clientId == t
      && (⟨aid, t', AlertType.egress_warning, thr', false, tick⟩ : AlertRow).alertType
        == AlertType.egress_warning
      && (⟨aid, t', AlertType.egress_warning, thr', false, tick⟩ : AlertRow).thresholdPercent == thr
      && (⟨aid, t', AlertType.egress_warning, thr', false, tick⟩ : AlertRow).createdAt.inOrAfterMonth m)
  · simpa using h
  · have hmatch : t' = t ∧ thr' = thr := by
      simp only [Bool.and_eq_true, beq_iff_eq] at hcond
      exact ⟨hcond.1.1.1, hcond.1.2⟩
    obtain ⟨rfl, rfl⟩ := hmatch
    have hz := countBucket_eq_zero_of_not_exists alerts m t' AlertType.egress_warning thr' hguard
    rw [hz]
    simp

theorem record_egress_preserves_warning_bound (t' b : Nat) (db : DB) (t thr : Nat)
    (h : countBucket db.alerts db.now.month t AlertType.egress_warning thr ≤ 1) :
    countBucket (record_egress t' b db).alerts db.now.month t AlertType.egress_warning thr
      ≤ 1 := by
  cases hl : lookupClient db t' with
  | none =>
    unfold record_egress
    rw [hl]
    exact h
  | some c =>
    rw [record_egress_alerts t' b db c hl]
    split_ifs with h100 h90 hex90 h80 hex80
    · rw [countBucket_append]
      simpa using h
    · exact h
    · exact countBucket_insert_warning_le db.alerts db.now.month t thr t' 90 db.nextAlertId
        db.now (by simpa using hex90) h
    · exact h
    · exact countBucket_insert_warning_le db.alerts db.now.month t thr t' 80 db.nextAlertId
        db.now (by simpa using hex80) h
    · exact h

theorem runCalls_warning_bound (calls : List (Nat × Nat)) (db : DB) (t thr : Nat)
    (h : countBucket db.alerts db.now.month t AlertType.egress_warning thr ≤ 1) :
    countBucket (runCalls calls db).alerts db.now.month t AlertType.egress_warning thr
      ≤ 1 := by
  induction calls generalizing db with
  | nil => exact h
  | cons p ps ih =>
    have hnow := (record_egress_parts p.1 p.2 db).1
    have h1 := record_egress_preserves_warning_bound p.1 p.2 db t thr h
    have h2 := ih (record_egress p.1 p.2 db) (by rw [hnow]; exact h1)
    rw [hnow] at h2
    simpa [runCalls, List.foldl_cons] using h2

theorem record_egress_limit_increments (t b : Nat) (db : DB) (c : ClientRow)
    (hc : lookupClient db t = some c)
    (hpct : 10000 ≤ usagePercentCenti (egressValue db.egress t db.now.month + bytesToGbMyg b)
      c.egressFreeLimitCenti) :
    countBucket (record_egress t b db).alerts db.now.month t AlertType.egress_limit 100
      = countBucket db.alerts db.now.month t AlertType.egress_limit 100 + 1 := by
  rw [record_egress_alerts t b db c hc, if_pos hpct, countBucket_append]
  simp [Time.inOrAfterMonth]

/-! ### Claim C3 -/

/-- C3 counterexample: in `dbC3` an unread `egress_limit` alert at
threshold 100 for tenant 1 already exists, created in the current calendar
month, yet `record_egress` (usage 200% of the free limit) inserts another
one — the current-month bucket for `(1, egress_limit, 100)` grows to 2, so
the alert is not "inserted only if no unread alert of that exact threshold
exists this month". -/
theorem egress_limit_alert_duplicated :
    (dbC3.alerts.any fun a => a.clientId == 1 && a.alertType == AlertType.egress_limit
      && a.thresholdPercent == 100 && !a.isRead
      && a.createdAt.inOrAfterMonth dbC3.now.month) = true
    ∧ countBucket (record_egress 1 1 dbC3).alerts dbC3.now.month 1
        AlertType.egress_limit 100 = 2 := by
  decide

/-- C3 corrected: at thresholds 80 and 90 the `NOT EXISTS` guard keeps the
number of current-month `egress_warning` alerts of a given (tenant,
threshold) at most 1 across any sequence of `record_egress` evaluations in
the month (hence at most one unread one); at threshold 100, however, every
evaluation whose resulting usage percent reaches 100 inserts a fresh
`egress_limit` alert unconditionally — the `INSERT IGNORE` never suppresses
a row because the primary key is a fresh UUID and no other unique
constraint exists. -/
theorem warning_dedup_but_limit_repeats (db : DB) (t b thr : Nat) (c : ClientRow)
    (calls : List (Nat × Nat))
    (_hthr : thr = 80 ∨ thr = 90)
    (hc : lookupClient db t = some c)
    (h0 : countBucket db.alerts db.now.month t AlertType.egress_warning thr ≤ 1)
    (hpct : 10000 ≤ usagePercentCenti (egressValue db.egress t db.now.month + bytesToGbMyg b)
      c.egressFreeLimitCenti) :
    countBucket (runCalls calls db).alerts db.now.month t AlertType.egress_warning thr ≤ 1
    ∧ countBucket (record_egress t b db).alerts db.now.month t AlertType.egress_limit 100
        = countBucket db.alerts db.now.month t AlertType.egress_limit 100 + 1 :=
  ⟨runCalls_warning_bound calls db t thr h0,
   record_egress_limit_increments t b db c hc hpct⟩

/-- C3 corrected witness: instantiated on `dbC3` with two further
evaluations for tenant 1. -/
theorem warning_dedup_but_limit_repeats_witness :
    countBucket dbC3.alerts dbC3.now.month 1 AlertType.egress_warning 90 ≤ 1
    ∧ 10000 ≤ usagePercentCenti (egressValue dbC3.egress 1 dbC3.now.month + bytesToGbMyg 1) 100
    ∧ countBucket (runCalls [(1, 1), (1, 1)] dbC3).alerts dbC3.now.month 1
        AlertType.egress_warning 90 ≤ 1
    ∧ countBucket (record_egress 1 1 dbC3).alerts dbC3.now.month 1 AlertType.egress_limit 100
        = countBucket dbC3.alerts dbC3.now.month 1 AlertType.egress_limit 100 + 1 := by
  refine ⟨by decide, by decide, ?_, ?_⟩
  · exact (warning_dedup_but_limit_repeats dbC3 1 1 90
      ⟨1, ClientStatus.active, 10000, 0, 100, true⟩ [(1, 1), (1, 1)]
      (Or.inr rfl) (by decide) (by decide) (by decide)).1
  · exact (warning_dedup_but_limit_repeats dbC3 1 1 90
      ⟨1, ClientStatus.active, 10000, 0, 100, true⟩ [(1, 1), (1, 1)]
      (Or.inr rfl) (by decide) (by decide) (by decide)).2

/-! ### Claim C4 -/

/-- C4: one `record_egress` evaluation creates at most one alert, choosing
the threshold by descending first-match-wins: when the post-upsert usage
percent lies in [90, 100), it appends exactly one `egress_warning` alert at
threshold 90 when none exists for this tenant and threshold this month, and
appends nothing otherwise — in particular no threshold-80 alert is created
in the same call. -/
theorem one_alert_per_call_descending_first_match (db : DB) (t b : Nat) (c : ClientRow)
    (hc : lookupClient db t = some c)
    (hlo : 9000 ≤ usagePercentCenti (egressValue db.egress t db.now.month + bytesToGbMyg b)
      c.egressFreeLimitCenti)
    (hhi : usagePercentCenti (egressValue db.egress t db.now.month + bytesToGbMyg b)
      c.egressFreeLimitCenti < 10000) :
    (record_egress t b db).alerts.length ≤ db.alerts.length + 1
    ∧ (egressAlertExists db.alerts db.now.month t AlertType.egress_warning 90 = false →
        (record_egress t b db).alerts
          = db.alerts ++ [⟨db.nextAlertId, t, AlertType.egress_warning, 90, false, db.now⟩])
    ∧ (egressAlertExists db.alerts db.now.month t AlertType.egress_warning 90 = true →
        (record_egress t b db).alerts = db.alerts) := by
  rw [record_egress_alerts t b db c hc, if_neg (by omega), if_pos hlo]
  refine ⟨?_, ?_, ?_⟩
  · cases hex : egressAlertExists db.alerts db.now.month t AlertType.egress_warning 90
    · simp
    · simp
  · intro hex
    rw [if_neg (by simp [hex])]
  · intro hex
    rw [if_pos hex]

/-- C4 witness: scenario B — free limit 2048.00 GB, current egress
1920.0000 GB, a 1 GiB download; the resulting percent is 93.80, one
threshold-90 `egress_warning` is appended. -/
theorem one_alert_per_call_witness :
    9000 ≤ usagePercentCenti (egressValue dbB.egress 1 dbB.now.month + bytesToGbMyg 1073741824)
      204800
    ∧ usagePercentCenti (egressValue dbB.egress 1 dbB.now.month + bytesToGbMyg 1073741824)
        204800 < 10000
    ∧ (record_egress 1 1073741824 dbB).alerts
        = dbB.alerts ++ [⟨dbB.nextAlertId, 1, AlertType.egress_warning, 90, false, dbB.now⟩] := by
  refine ⟨by decide, by decide, ?_⟩
  exact (one_alert_per_call_descending_first_match dbB 1 1073741824
    ⟨1, ClientStatus.active, 10000, 100, 204800, true⟩
    (by decide) (by decide) (by decide)).2.1 (by decide)

/-! ### Access gate lemmas: the rational comparisons, cross-multiplied -/

theorem wouldExceed_iff (c : ClientRow) (s : Nat) :
    wouldExceed c s
      = decide (c.storageQuotaCenti * 1073741824
          < c.storageUsedCenti * 1073741824 + s * 100) := by
  unfold wouldExceed
  rw [decide_eq_decide, gt_iff_lt,
    div_add_div _ _ (by norm_num : (100 : ℚ) ≠ 0) (by norm_num : (1024 * 1024 * 1024 : ℚ) ≠ 0),
    div_lt_div_iff₀ (by norm_num : (0 : ℚ) < 100)
      (by norm_num : (0 : ℚ) < 100 * (1024 * 1024 * 1024))]
  constructor
  · intro h
    have h2 : (c.storageQuotaCenti : ℚ) * 1073741824
        < (c.storageUsedCenti : ℚ) * 1073741824 + (s : ℚ) * 100 := by nlinarith
    exact_mod_cast h2
  · intro h
    have h2 : (c.storageQuotaCenti : ℚ) * 1073741824
        < (c.storageUsedCenti : ℚ) * 1073741824 + (s : ℚ) * 100 := by exact_mod_cast h
    nlinarith

theorem downloadBlocked_iff (db : DB) (c : ClientRow) :
    downloadBlocked db c
      = (db.settings.blockDownloadsOnOverage
          && decide (c.egressFreeLimitCenti * 10000
            ≤ egressValue db.egress c.id db.now.month * 100)) := by
  unfold downloadBlocked
  congr 1
  rw [decide_eq_decide, ge_iff_le,
    div_le_div_iff₀ (by norm_num : (0 : ℚ) < 100) (by norm_num : (0 : ℚ) < 10000)]
  exact_mod_cast Iff.rfl

/-! ### Claim C5 -/

/-- C5: `getUploadUrl` fails with `ACCOUNT_SUSPENDED` when the tenant's
status is not active, with `STORAGE_NOT_CONFIGURED` when the tenant (past
the status check) has no verified storage configuration, and with
`QUOTA_EXCEEDED` when cached usage plus the upload size in GB exceeds the
quota (the integer inequality is `used/100 + size/2^30 > quota/100`
cross-multiplied by `100 * 2^30`); in each case the returned state is the
unchanged input state, so no file row is created. -/
theorem upload_gate_failures_leave_files_unchanged (db : DB) (t s fid : Nat) (c : ClientRow)
    (hc : lookupClient db t = some c) :
    (c.status ≠ ClientStatus.active →
      getUploadUrl t s fid db = (Except.error ApiError.AccountSuspended, db))
    ∧ (c.status = ClientStatus.active → c.isVerified = false →
      getUploadUrl t s fid db = (Except.error ApiError.StorageNotConfigured, db))
    ∧ (c.status = ClientStatus.active → c.isVerified = true →
      c.storageQuotaCenti * 1073741824 < c.storageUsedCenti * 1073741824 + s * 100 →
      getUploadUrl t s fid db = (Except.error ApiError.QuotaExceeded, db)) := by
  unfold getUploadUrl
  rw [hc]
  dsimp only
  refine ⟨?_, ?_, ?_⟩
  · intro h
    rw [if_pos h]
  · intro h hv
    rw [if_neg (by simp [h]), if_pos (by simp [hv])]
  · intro h hv hq
    rw [if_neg (by simp [h]), if_neg (by simp [hv]),
      if_pos (by rw [wouldExceed_iff]; exact decide_eq_true hq)]

/-- C5 witness: scenario A — quota 100.00 GB, usage 0, a 150 GiB upload
fails with `QUOTA_EXCEEDED` and the files table is unchanged. -/
theorem upload_gate_witness :
    getUploadUrl 1 161061273600 9 dbA = (Except.error ApiError.QuotaExceeded, dbA)
    ∧ (getUploadUrl 1 161061273600 9 dbA).2.files = dbA.files := by
  have h := (upload_gate_failures_leave_files_unchanged dbA 1 161061273600 9
    ⟨1, ClientStatus.active, 10000, 0, 204800, true⟩ (by decide)).2.2 rfl rfl (by decide)
  exact ⟨h, by rw [h]⟩

/-! ### Claim C10 -/

/-- C10: for an active, verified tenant, `getUploadUrl` fails with
`QUOTA_EXCEEDED` exactly when cached usage plus the upload size in GB is
strictly greater than the quota (`used/100 + size/2^30 > quota/100`,
written here cross-multiplied by `100 * 2^30`); an upload whose size brings
usage exactly up to the quota is authorized and inserts the file row. -/
theorem quota_check_is_strict (db : DB) (t s fid : Nat) (c : ClientRow)
    (hc : lookupClient db t = some c)
    (hact : c.status = ClientStatus.active)
    (hver : c.isVerified = true) :
    (getUploadUrl t s fid db = (Except.error ApiError.QuotaExceeded, db)
      ↔ c.storageQuotaCenti * 1073741824 < c.storageUsedCenti * 1073741824 + s * 100)
    ∧ (c.storageUsedCenti * 1073741824 + s * 100 = c.storageQuotaCenti * 1073741824 →
      getUploadUrl t s fid db
        = (Except.ok fid,
            { db with files := db.files ++ [⟨fid, t, s, FType.file, none, none⟩] })) := by
  unfold getUploadUrl
  rw [hc]
  dsimp only
  rw [if_neg (by simp [hact]), if_neg (by simp [hver]), wouldExceed_iff]
  constructor
  · constructor
    · intro h
      by_contra hq
      rw [if_neg (by simp [decide_eq_false hq])] at h
      simp at h
    · intro hq
      rw [if_pos (decide_eq_true hq)]
  · intro heq
    have hq : ¬(c.storageQuotaCenti * 1073741824 < c.storageUsedCenti * 1073741824 + s * 100) := by
      omega
    rw [if_neg (by simp [decide_eq_false hq])]

/-- C10 witness: quota 100.00 GB, usage 0, a 100 GiB upload fills the quota
exactly and is authorized. -/
theorem quota_exact_fill_witness :
    getUploadUrl 1 107374182400 9 dbA
      = (Except.ok 9, { dbA with files := dbA.files ++ [⟨9, 1, 107374182400, FType.file, none, none⟩] }) := by
  exact (quota_check_is_strict dbA 1 107374182400 9
    ⟨1, ClientStatus.active, 10000, 0, 204800, true⟩ (by decide) rfl rfl).2 (by decide)

/-! ### Claim C6 -/

/-- C6: when `block_downloads_on_overage` is true and the tenant's
current-month egress usage is at least the free limit
(`egress/10000 ≥ limit/100`, written cross-multiplied by `100 * 10000`),
`getDownloadUrl` fails with `DOWNLOAD_LIMIT_EXCEEDED` and leaves the state
unchanged; consequently every one of the `n` subsequent identical calls
fails the same way — the failure persists until the usage, the limit or the
setting changes, because a failing call changes nothing. -/
theorem download_blocked_on_overage_persists (db : DB) (t fid n : Nat) (f : FileRow)
    (c : ClientRow)
    (hf : db.files.find? (fun f => f.id == fid && f.clientId == t && f.deletedAt == none
        && f.ftype == FType.file) = some f)
    (hc : lookupClient db t = some c)
    (hact : c.status = ClientStatus.active)
    (hblock : db.settings.blockDownloadsOnOverage = true)
    (hover : c.egressFreeLimitCenti * 10000 ≤ egressValue db.egress c.id db.now.month * 100) :
    getDownloadUrl t fid db = (Except.error ApiError.DownloadLimitExceeded, db)
    ∧ downloadTimes t fid n db = db
    ∧ getDownloadUrl t fid (downloadTimes t fid n db)
        = (Except.error ApiError.DownloadLimitExceeded, db) := by
  have h1 : getDownloadUrl t fid db = (Except.error ApiError.DownloadLimitExceeded, db) := by
    unfold getDownloadUrl
    rw [hf, hc]
    dsimp only
    rw [if_neg (by simp [hact]),
      if_pos (by rw [downloadBlocked_iff, hblock]
                 simp only [Bool.true_and]
                 exact decide_eq_true hover)]
  have h2 : downloadTimes t fid n db = db := by
    induction n with
    | zero => rfl
    | succ n ih =>
      show downloadTimes t fid n (getDownloadUrl t fid db).2 = db
      rw [h1]
      exact ih
  exact ⟨h1, h2, by rw [h2]; exact h1⟩

/-- C6 witness: `dbC6` has blocking enabled and usage 1.0000 GB against a
1.00 GB free limit; the call and its third repetition fail with
`DOWNLOAD_LIMIT_EXCEEDED` while the state stays unchanged. -/
theorem download_blocked_witness :
    dbC6.settings.blockDownloadsOnOverage = true
    ∧ getDownloadUrl 1 3 dbC6 = (Except.error ApiError.DownloadLimitExceeded, dbC6)
    ∧ getDownloadUrl 1 3 (downloadTimes 1 3 3 dbC6)
        = (Except.error ApiError.DownloadLimitExceeded, dbC6) := by
  refine ⟨rfl, ?_, ?_⟩
  · exact (download_blocked_on_overage_persists dbC6 1 3 3 ⟨3, 1, 2048, FType.file, some 1, none⟩
      ⟨1, ClientStatus.active, 10000, 0, 100, true⟩
      (by decide) (by decide) rfl rfl (by decide)).1
  · exact (download_blocked_on_overage_persists dbC6 1 3 3 ⟨3, 1, 2048, FType.file, some 1, none⟩
      ⟨1, ClientStatus.active, 10000, 0, 100, true⟩
      (by decide) (by decide) rfl rfl (by decide)).2.2

/-! ### Claim C9 -/

/-- C9: the `alerts` table of `schema.sql` carries a read flag but no
dismissed flag, while `dismissAlert` runs
`UPDATE alerts SET is_dismissed = TRUE`; for any alert owned by the
requesting tenant the update therefore fails with an unknown-column
database error and no flag is set, instead of succeeding. -/
theorem dismiss_alert_hits_unknown_column (db : DB) (t aid : Nat)
    (h : alertOwnedBy db aid t = true) :
    dismissAlert t aid db = (Except.error (ApiError.UnknownColumn "is_dismissed"), db)
    ∧ "is_dismissed" ∉ alertsTableColumns
    ∧ "is_read" ∈ alertsTableColumns := by
  refine ⟨?_, by decide, by decide⟩
  unfold dismissAlert
  rw [if_pos h, if_neg (by decide)]

/-- C9 witness: client 1 dismissing its own alert 5 in `dbC9`. -/
theorem dismiss_alert_witness :
    alertOwnedBy dbC9 5 1 = true
    ∧ dismissAlert 1 5 dbC9 = (Except.error (ApiError.UnknownColumn "is_dismissed"), dbC9) := by
  refine ⟨by decide, ?_⟩
  exact (dismiss_alert_hits_unknown_column dbC9 1 5 (by decide)).1

end TrueBackup
